import Mathlib

/-!
Verification of the real-time room state synchronization core of the
Meta-Verse-APP repository.  The definitions below are a shallow embedding of

  * `src/server/src/models/Room.js` (the mongoose room document methods
    `addParticipant`, `removeParticipant`), and
  * the Socket.IO server of `src/unnamed/part_010` (the `joinRoom`,
    `userMove`, `chatMessage` and `disconnect` handlers together with the
    `roomStates` cache, the `lastMoveTime` throttle map and `handleRoomLeave`).

JavaScript semantics that the handlers rely on are made explicit:

  * numbers are modelled as exact rationals extended with `NaN` and the two
    infinities (the claims under study depend on `NaN`/`Infinity` propagation
    through `Math.min`/`Math.max`/`-`/`Math.abs` and comparisons, not on
    binary rounding);
  * mongoose `ObjectId`s are modelled as a hex value together with an
    allocation identity, so that the JavaScript `===` comparison (reference
    equality) and the `.toString()` comparison (value equality) can be
    distinguished — the source uses both;
  * `undefined` appearing in a `>=` comparison is modelled by an `Option`
    (in JavaScript `a >= undefined` is `false` because `undefined` converts
    to `NaN`).
-/

namespace MetaVerse

/-- Result of a fallible JavaScript operation: a value, or a thrown /
rejected error message. -/
inductive JSResult (α : Type) where
  | ok (a : α)
  | err (e : String)
deriving DecidableEq, Repr

/-- Whether a result is a success. -/
def JSResult.isOk {α : Type} : JSResult α → Bool
  | .ok _ => true
  | .err _ => false

/-- JavaScript number values as used by the movement pipeline: `NaN`, the two
infinities, and finite values modelled as exact rationals. -/
inductive JSNum where
  | nan
  | posInf
  | negInf
  | num (q : ℚ)
deriving DecidableEq, Repr

/-- JavaScript `<=` on numbers: any comparison involving `NaN` is `false`. -/
def jsLe : JSNum → JSNum → Bool
  | .nan, _ => false
  | _, .nan => false
  | .negInf, _ => true
  | _, .negInf => false
  | _, .posInf => true
  | .posInf, _ => false
  | .num a, .num b => decide (a ≤ b)

/-- JavaScript `<` on numbers: any comparison involving `NaN` is `false`. -/
def jsLt : JSNum → JSNum → Bool
  | .nan, _ => false
  | _, .nan => false
  | .negInf, .negInf => false
  | .negInf, _ => true
  | _, .negInf => false
  | .posInf, .posInf => false
  | _, .posInf => true
  | .posInf, _ => false
  | .num a, .num b => decide (a < b)

/-- JavaScript `>` on numbers (`a > b` is `b < a`; `false` whenever `NaN`
is involved). -/
def jsGt (a b : JSNum) : Bool := jsLt b a

/-- JavaScript `Math.min`: returns `NaN` if either argument is `NaN`. -/
def jsMin : JSNum → JSNum → JSNum
  | .nan, _ => .nan
  | _, .nan => .nan
  | .negInf, _ => .negInf
  | _, .negInf => .negInf
  | .posInf, b => b
  | a, .posInf => a
  | .num a, .num b => .num (min a b)

/-- JavaScript `Math.max`: returns `NaN` if either argument is `NaN`. -/
def jsMax : JSNum → JSNum → JSNum
  | .nan, _ => .nan
  | _, .nan => .nan
  | .posInf, _ => .posInf
  | _, .posInf => .posInf
  | .negInf, b => b
  | a, .negInf => a
  | .num a, .num b => .num (max a b)

/-- JavaScript subtraction: `NaN` is absorbing and `∞ - ∞ = NaN`. -/
def jsSub : JSNum → JSNum → JSNum
  | .nan, _ => .nan
  | _, .nan => .nan
  | .posInf, .posInf => .nan
  | .posInf, _ => .posInf
  | .negInf, .negInf => .nan
  | .negInf, _ => .negInf
  | .num _, .posInf => .negInf
  | .num _, .negInf => .posInf
  | .num a, .num b => .num (a - b)

/-- JavaScript `Math.abs`. -/
def jsAbs : JSNum → JSNum
  | .nan => .nan
  | .posInf => .posInf
  | .negInf => .posInf
  | .num a => .num |a|

/-- A mongoose `ObjectId`: its hex value together with an allocation identity.
Two `ObjectId` objects obtained from separate database loads carry the same
`value` but distinct `ref`s. -/
structure OID where
  value : ℕ
  ref : ℕ
deriving DecidableEq, Repr

/-- JavaScript `===` on two `ObjectId` objects: reference equality (the same
object; in particular the same hex value). -/
def oidStrictEq (a b : OID) : Bool := a.ref == b.ref && a.value == b.value

/-- The `a.toString() === b.toString()` comparison: value equality. -/
def oidValueEq (a b : OID) : Bool := a.value == b.value

/-- A participant position as stored on the room document. -/
structure Pos where
  x : JSNum
  y : JSNum
deriving DecidableEq, Repr

/-- One entry of a room's `participants` array, as held in the in-memory
`roomStates` cache: the schema fields `user`, `position`, `lastActive`
(`src/server/src/models/Room.js` lines 65-78) plus the `lastPosition`
property the socket handlers maintain on the cached document. -/
structure Participant where
  user : OID
  position : Pos
  lastPosition : Pos
  lastActive : ℕ
deriving DecidableEq, Repr

/-- A room document.  `maxParticipants` is the top-level path read by
`addParticipant`; under the current schema (`Room.js` lines 21-97) no such
top-level path exists — `maxParticipants` there lives under
`settings.maxParticipants` — so on documents built from the schema the
top-level read yields `undefined`, modelled as `none`. -/
structure RoomDoc where
  participants : List Participant
  maxParticipants : Option ℕ := none
  settingsMaxParticipants : ℕ := 50
deriving DecidableEq, Repr

/-- JavaScript `len >= m` where `m` may be `undefined`: `undefined` converts
to `NaN` and every comparison with `NaN` is `false`. -/
def lengthGeUndef (len : ℕ) (m : Option ℕ) : Bool :=
  match m with
  | none => false
  | some k => decide (k ≤ len)

/-- `Room.js` lines 100-113, `roomSchema.methods.addParticipant`: throws
`Room is full` when `participants.length >= this.maxParticipants`, otherwise
pushes `(user, position, lastActive)`.  The socket `joinRoom` handler passes
the spawn position for both `position` and `lastPosition`. -/
def addParticipant (r : RoomDoc) (uid : OID) (pos : Pos) (now : ℕ) :
    JSResult RoomDoc :=
  if lengthGeUndef r.participants.length r.maxParticipants then
    .err "Room is full"
  else
    .ok { r with participants := r.participants ++ [⟨uid, pos, pos, now⟩] }

/-- `Room.js` lines 116-130, `roomSchema.methods.removeParticipant`:
`findIndex(p => p.user._id === userId)` — a JavaScript `===` comparison of
two `ObjectId` objects — followed by `splice(index, 1)` when found. -/
def removeParticipant (r : RoomDoc) (userId : OID) : RoomDoc :=
  match r.participants.findIdx? (fun p => oidStrictEq p.user userId) with
  | some i => { r with participants := r.participants.eraseIdx i }
  | none => r

/-- `part_010` lines 418-420: the `joinRoom` handler's membership test,
`room.participants.some(p => p.user._id.toString() === userId.toString())`. -/
def isParticipantCheck (r : RoomDoc) (userId : OID) : Bool :=
  r.participants.any (fun p => oidValueEq p.user userId)

/-- `part_010` lines 417-429: the participant-set effect of the `joinRoom`
handler — when the membership test fails, `addParticipant` is called with the
spawn position `(100, 100)`; when it succeeds nothing on the participant
entry is touched. -/
def joinRoomUpdate (r : RoomDoc) (userId : OID) (now : ℕ) : JSResult RoomDoc :=
  if isParticipantCheck r userId then .ok r
  else addParticipant r userId ⟨.num 100, .num 100⟩ now

/-- A raw value arriving from the client for `position.x` / `position.y`:
either of JavaScript type `number` (which includes `NaN` and the infinities)
or of some other `typeof`. -/
inductive JSVal where
  | num (n : JSNum)
  | other
deriving DecidableEq, Repr

/-- A raw `position` object from a `userMove` payload. -/
structure RawPos where
  x : JSVal
  y : JSVal
deriving DecidableEq, Repr

/-- The state the `userMove` handler reads and writes: the cached room's
participant array and the module-level `lastMoveTime` map. -/
structure MoveState where
  participants : List Participant
  lastMoveTime : List (OID × ℕ)
deriving DecidableEq, Repr

/-- Result of one `userMove` invocation: the state afterwards, whether a
`roomState` broadcast was triggered, and whether the handler threw (emitting
an `error` event to the sender). -/
structure MoveOutcome where
  state : MoveState
  broadcast : Bool
  errored : Bool
deriving DecidableEq, Repr

/-- Lookup in the `lastMoveTime` JavaScript `Map`, which is keyed by the
`ObjectId` object itself (reference-keyed). -/
def lookupMoveTime : List (OID × ℕ) → OID → Option ℕ
  | [], _ => none
  | (k, t) :: rest, uid => if oidStrictEq k uid then some t else lookupMoveTime rest uid

/-- `lastMoveTime.set(userId, now)`. -/
def setMoveTime : List (OID × ℕ) → OID → ℕ → List (OID × ℕ)
  | [], uid, t => [(uid, t)]
  | (k, t0) :: rest, uid, t =>
    if oidStrictEq k uid then (k, t) :: rest else (k, t0) :: setMoveTime rest uid t

/-- In-place mutation of the first array element matching a predicate, as
performed on the entry returned by `participants.find(...)`. -/
def updateFirst (pred : Participant → Bool) (f : Participant → Participant) :
    List Participant → List Participant
  | [] => []
  | p :: rest => if pred p then f p :: rest else p :: updateFirst pred f rest

/-- `part_010` line 516: `Math.max(bounds.minX, Math.min(bounds.maxX, position.x))`
with the fixed bounds `minX = 20`, `maxX = 780`. -/
def clampX (x : JSNum) : JSNum := jsMax (.num 20) (jsMin (.num 780) x)

/-- `part_010` line 517: the same for `y` with `minY = 20`, `maxY = 580`. -/
def clampY (y : JSNum) : JSNum := jsMax (.num 20) (jsMin (.num 580) y)

/-- The significance threshold `0.1` of `part_010` lines 521-522. -/
def epsilonQ : ℚ := 1 / 10

/-- `part_010` lines 521-522: the significance filter,
`Math.abs(cur.x - target.x) > 0.1 || Math.abs(cur.y - target.y) > 0.1`. -/
def significantMove (cur target : Pos) : Bool :=
  jsGt (jsAbs (jsSub cur.x target.x)) (.num epsilonQ) ||
  jsGt (jsAbs (jsSub cur.y target.y)) (.num epsilonQ)

/-- The participant lookup predicate of `part_010` lines 499-501:
`p.user._id.toString() === userId.toString()`. -/
def participantKey (uid : OID) (p : Participant) : Bool := oidValueEq p.user uid

/-- `part_010` lines 525-527, the commit step: set
`lastPosition ← position`, `position ← validated`, `lastActive ← now` on the
found participant. -/
def commitFn (v : Pos) (now : ℕ) (p : Participant) : Participant :=
  { p with lastPosition := p.position, position := v, lastActive := now }

/-- `part_010` lines 479-549, the `userMove` handler: authentication guard,
`typeof`-number validation of the raw position, the 50 ms throttle against
`lastMoveTime` (whose stamp is written once the throttle passes, before the
participant lookup), the bounds clamp, the `0.1`-unit significance filter,
and the commit (set `lastPosition`/`position`/`lastActive`, persist, then
broadcast).  `authed` stands for `userId` being set and `inRoom` for
`currentRoomId` being set; the cached room for `currentRoomId` is
`st.participants`. -/
def userMove (st : MoveState) (authed : Bool) (inRoom : Bool) (uid : OID)
    (data : Option RawPos) (now : ℕ) : MoveOutcome :=
  if !(authed && inRoom) then ⟨st, false, true⟩
  else
    match data with
    | none => ⟨st, false, true⟩
    | some rp =>
      match rp.x, rp.y with
      | .num x, .num y =>
        let lastMove := (lookupMoveTime st.lastMoveTime uid).getD 0
        if (now : ℤ) - (lastMove : ℤ) < 50 then ⟨st, false, false⟩
        else
          let st1 : MoveState := { st with lastMoveTime := setMoveTime st.lastMoveTime uid now }
          match st1.participants.find? (participantKey uid) with
          | none => ⟨st1, false, true⟩
          | some part =>
            let validated : Pos := ⟨clampX x, clampY y⟩
            if significantMove part.position validated then
              let st2 : MoveState :=
                { st1 with participants :=
                    updateFirst (participantKey uid) (commitFn validated now) st1.participants }
              ⟨st2, true, false⟩
            else ⟨st1, false, false⟩
      | _, _ => ⟨st, false, true⟩

/-- JavaScript `String.prototype.trim` whitespace for the characters that
occur in chat payloads. -/
def isJsWhitespace (c : Char) : Bool :=
  c == ' ' || c == '\t' || c == '\n' || c == '\r'

/-- `message.trim()`, on strings modelled as character lists. -/
def jsTrim (s : List Char) : List Char :=
  ((s.dropWhile isJsWhitespace).reverse.dropWhile isJsWhitespace).reverse

/-- The raw `message` field of a `chatMessage` payload: a string or a value
of some other `typeof`. -/
inductive ChatVal where
  | str (s : List Char)
  | other
deriving DecidableEq, Repr

/-- `part_010` lines 551-581, the `chatMessage` handler: authentication
guard, the `!message || typeof message !== 'string' || message.trim().length
=== 0` validation, `getRoomState` (which throws `Room not found` on a
missing room, modelled by `roomLoaded`), `addChatMessage(userId,
message.trim())` plus `room.save()` (persistence, modelled by `persistOk`;
the new chat document's `_id` is `newId`), and on success the acknowledgment
`{ success: true, messageId }`; every thrown error reaches the
acknowledgment callback as `{ error }`. -/
def chatMessageHandler (authed inRoom roomLoaded persistOk : Bool)
    (msg : Option ChatVal) (newId : ℕ) : JSResult (List Char × ℕ) :=
  if !(authed && inRoom) then .err "User not authenticated or not in a room"
  else
    match msg with
    | some (.str s) =>
      if s.isEmpty then .err "Invalid message"
      else if (jsTrim s).isEmpty then .err "Invalid message"
      else if !roomLoaded then .err "Room not found"
      else if !persistOk then .err "Persistence error"
      else .ok (jsTrim s, newId)
    | _ => .err "Invalid message"

/-- The module-level server state of `part_010`: the `roomStates` cache
(room id → cached room document) and the Socket.IO adapter's room-membership
map (room id → number of live sockets; Socket.IO removes a room's entry when
its last socket leaves, which happens before the `disconnect` event fires,
so an entry with count `0` never occurs). -/
structure ServerState where
  roomStates : List (ℕ × RoomDoc)
  adapterSockets : List (ℕ × ℕ)
deriving DecidableEq, Repr

/-- Association-list lookup keyed by room id. -/
def assocLookup {β : Type} : List (ℕ × β) → ℕ → Option β
  | [], _ => none
  | (k, v) :: rest, rid => if k == rid then some v else assocLookup rest rid

/-- Association-list overwrite keyed by room id. -/
def assocSet {β : Type} : List (ℕ × β) → ℕ → β → List (ℕ × β)
  | [], rid, v => [(rid, v)]
  | (k, v0) :: rest, rid, v =>
    if k == rid then (k, v) :: rest else (k, v0) :: assocSet rest rid v

/-- Association-list deletion keyed by room id. -/
def assocRemove {β : Type} : List (ℕ × β) → ℕ → List (ℕ × β)
  | [], _ => []
  | (k, v0) :: rest, rid => if k == rid then rest else (k, v0) :: assocRemove rest rid

/-- `part_010` lines 630-641, `handleRoomLeave`: fetch the cached room,
`removeParticipant(userId)`, save, then `broadcastRoomState` (which emits the
cached room as the `roomState` payload, returned here as the second
component).  Every error is caught and logged, so the function is total and
never fails its caller; a room absent from the cache and the store yields no
broadcast. -/
def handleRoomLeave (ss : ServerState) (rid : ℕ) (uid : OID) :
    ServerState × Option RoomDoc :=
  match assocLookup ss.roomStates rid with
  | none => (ss, none)
  | some room =>
    let r2 := removeParticipant room uid
    ({ ss with roomStates := assocSet ss.roomStates rid r2 }, some r2)

/-- `part_010` line 622: `io.sockets.adapter.rooms.get(currentRoomId)?.size === 0`.
When the adapter has no entry for the room, `get` yields `undefined` and the
optional chaining makes the whole comparison `undefined === 0`, i.e. `false`. -/
def evictCheck (ss : ServerState) (rid : ℕ) : Bool :=
  match assocLookup ss.adapterSockets rid with
  | none => false
  | some n => n == 0

/-- `part_010` lines 607-628, the room-state effect of the `disconnect`
handler: if the socket had a current room, run `handleRoomLeave`, then
delete the `roomStates` entry when the adapter-size test passes. -/
def disconnectHandler (ss : ServerState) (uid : OID) (currentRoomId : Option ℕ) :
    ServerState × Option RoomDoc :=
  match currentRoomId with
  | none => (ss, none)
  | some rid =>
    let res := handleRoomLeave ss rid uid
    if evictCheck res.1 rid then
      ({ res.1 with roomStates := assocRemove res.1.roomStates rid }, res.2)
    else res

/-- The room-bounds invariant of the spec, on the fixed bounds
`(20, 780, 20, 580)`, stated with JavaScript comparison semantics. -/
def inBoundsB (p : Pos) : Bool :=
  jsLe (.num 20) p.x && jsLe p.x (.num 780) && jsLe (.num 20) p.y && jsLe p.y (.num 580)

/-- The `typeof position.x === 'number' && typeof position.y === 'number'`
part of the `userMove` validation (`part_010` line 486), together with the
`position` presence test. -/
def typeofNumberCheck : Option RawPos → Bool
  | some ⟨.num _, .num _⟩ => true
  | _ => false

/-- The `chatMessage` validation condition of `part_010` line 558:
`message` present, of string type, with non-empty trimmed text. -/
def chatValidCheck : Option ChatVal → Bool
  | some (.str s) => !s.isEmpty && !(jsTrim s).isEmpty
  | _ => false

/-- Number of participant entries carrying a given identity value. -/
def countValue (v : ℕ) (l : List Participant) : ℕ :=
  l.countP (fun p => p.user.value == v)

/-- An identity as loaded by the room-state cache (its `ObjectId` allocated
when the room document was populated). -/
def demoUid : OID := ⟨7, 0⟩

/-- The same identity value held by a socket (a distinct `ObjectId`
allocation obtained from `User.findById` during authentication). -/
def demoUid2 : OID := ⟨7, 1⟩

/-- The spawn position `(100, 100)`. -/
def demoPos100 : Pos := ⟨.num 100, .num 100⟩

/-- A participant entry for `demoUid` sitting at the spawn position. -/
def demoPart : Participant := ⟨demoUid, demoPos100, demoPos100, 0⟩

/-- A second participant entry, for a distinct identity. -/
def demoPartB : Participant := ⟨⟨8, 2⟩, demoPos100, demoPos100, 0⟩

/-- A cached room occupied by `demoPart` alone. -/
def demoRoomA : RoomDoc := ⟨[demoPart], none, 50⟩

/-- A cached room with no participants (e.g. the freshly created Lobby). -/
def demoEmptyRoom : RoomDoc := ⟨[], none, 50⟩

/-- A room at its configured capacity: `settings.maxParticipants = 2` and two
participant entries; the top-level `maxParticipants` path is `undefined` as
on every document built from the current schema. -/
def demoFullRoom : RoomDoc := ⟨[demoPart, demoPartB], none, 2⟩

/-- Movement-handler state for a room whose only participant is `demoPart`,
with an empty throttle map. -/
def demoState : MoveState := ⟨[demoPart], []⟩

/-! ## Helper lemmas -/

theorem oidStrictEq_self (a : OID) : oidStrictEq a a = true := by
  simp [oidStrictEq]

theorem oidStrictEq_value {a b : OID} (h : oidStrictEq a b = true) : a.value = b.value := by
  simp [oidStrictEq] at h
  exact h.2

theorem lookupMoveTime_setMoveTime_self (m : List (OID × ℕ)) (uid : OID) (t : ℕ) :
    lookupMoveTime (setMoveTime m uid t) uid = some t := by
  induction m with
  | nil => simp [setMoveTime, lookupMoveTime, oidStrictEq_self]
  | cons kv rest ih =>
    obtain ⟨k, t0⟩ := kv
    by_cases h : oidStrictEq k uid = true
    · simp [setMoveTime, h, lookupMoveTime]
    · simp only [Bool.not_eq_true] at h
      simp [setMoveTime, h, lookupMoveTime, ih]

theorem mem_updateFirst {pred : Participant → Bool} {f : Participant → Participant}
    {l : List Participant} {q : Participant} (h : q ∈ updateFirst pred f l) :
    q ∈ l ∨ ∃ p, p ∈ l ∧ q = f p := by
  induction l with
  | nil => simp [updateFirst] at h
  | cons p rest ih =>
    by_cases hp : pred p = true
    · simp only [updateFirst, hp, if_true, List.mem_cons] at h
      rcases h with h | h
      · exact Or.inr ⟨p, List.mem_cons_self p rest, h⟩
      · exact Or.inl (List.mem_cons_of_mem p h)
    · simp only [Bool.not_eq_true] at hp
      simp only [updateFirst, hp, Bool.false_eq_true, if_false, List.mem_cons] at h
      rcases h with h | h
      · exact Or.inl (h ▸ List.mem_cons_self p rest)
      · rcases ih h with h2 | ⟨p2, hp2, hq⟩
        · exact Or.inl (List.mem_cons_of_mem p h2)
        · exact Or.inr ⟨p2, List.mem_cons_of_mem p hp2, hq⟩

theorem find?_updateFirst (pred : Participant → Bool) (f : Participant → Participant)
    (hf : ∀ a, pred (f a) = pred a) (l : List Participant) :
    (updateFirst pred f l).find? pred = (l.find? pred).map f := by
  induction l with
  | nil => simp [updateFirst]
  | cons p rest ih =>
    by_cases hp : pred p = true
    · simp [updateFirst, hp, List.find?_cons, hf]
    · simp only [Bool.not_eq_true] at hp
      simp [updateFirst, hp, List.find?_cons, ih]

theorem findIdx?_eq_none_of_all {pred : Participant → Bool} {l : List Participant}
    (h : ∀ p ∈ l, pred p = false) : l.findIdx? pred = none := by
  induction l with
  | nil => simp
  | cons p rest ih =>
    have hp := h p (List.mem_cons_self p rest)
    rw [List.findIdx?_cons]
    simp only [hp, Bool.false_eq_true, if_false]
    have := ih (fun q hq => h q (List.mem_cons_of_mem p hq))
    simp [this]

theorem assocSet_lookup_self {β : Type} {m : List (ℕ × β)} {rid : ℕ} {v : β}
    (h : assocLookup m rid = some v) : assocSet m rid v = m := by
  induction m with
  | nil => simp [assocLookup] at h
  | cons kv rest ih =>
    obtain ⟨k, v0⟩ := kv
    by_cases hk : (k == rid) = true
    · simp only [assocLookup, hk, if_true, Option.some.injEq] at h
      simp [assocSet, hk, h]
    · simp only [Bool.not_eq_true] at hk
      simp only [assocLookup, hk, Bool.false_eq_true, if_false] at h
      simp [assocSet, hk, ih h]

theorem clampX_lb (x : JSNum) (hx : x ≠ .nan) : jsLe (.num 20) (clampX x) = true := by
  cases x with
  | nan => exact absurd rfl hx
  | posInf => norm_num [clampX, jsMin, jsMax, jsLe]
  | negInf => norm_num [clampX, jsMin, jsMax, jsLe]
  | num q => simp [clampX, jsMin, jsMax, jsLe, le_max_left]

theorem clampX_ub (x : JSNum) (hx : x ≠ .nan) : jsLe (clampX x) (.num 780) = true := by
  cases x with
  | nan => exact absurd rfl hx
  | posInf => norm_num [clampX, jsMin, jsMax, jsLe]
  | negInf => norm_num [clampX, jsMin, jsMax, jsLe]
  | num q =>
    simp only [clampX, jsMin, jsMax, jsLe, decide_eq_true_eq]
    exact max_le (by norm_num) (min_le_left _ _)

theorem clampY_lb (y : JSNum) (hy : y ≠ .nan) : jsLe (.num 20) (clampY y) = true := by
  cases y with
  | nan => exact absurd rfl hy
  | posInf => norm_num [clampY, jsMin, jsMax, jsLe]
  | negInf => norm_num [clampY, jsMin, jsMax, jsLe]
  | num q => simp [clampY, jsMin, jsMax, jsLe, le_max_left]

theorem clampY_ub (y : JSNum) (hy : y ≠ .nan) : jsLe (clampY y) (.num 580) = true := by
  cases y with
  | nan => exact absurd rfl hy
  | posInf => norm_num [clampY, jsMin, jsMax, jsLe]
  | negInf => norm_num [clampY, jsMin, jsMax, jsLe]
  | num q =>
    simp only [clampY, jsMin, jsMax, jsLe, decide_eq_true_eq]
    exact max_le (by norm_num) (min_le_left _ _)

theorem inBoundsB_clamp (x y : JSNum) (hx : x ≠ .nan) (hy : y ≠ .nan) :
    inBoundsB ⟨clampX x, clampY y⟩ = true := by
  simp [inBoundsB, clampX_lb x hx, clampX_ub x hx, clampY_lb y hy, clampY_ub y hy]

/-- Case analysis for one `userMove` invocation: either the participant array
is left untouched and no broadcast happens, or the input was a number-typed
position, the throttle passed, a participant entry was found, the clamped
position was a significant change, and the first matching entry was
committed with a broadcast. -/
theorem userMove_shape (st : MoveState) (authed inRoom : Bool) (uid : OID)
    (data : Option RawPos) (now : ℕ) :
    ((userMove st authed inRoom uid data now).state.participants = st.participants ∧
      (userMove st authed inRoom uid data now).broadcast = false) ∨
    (∃ x y part, data = some ⟨.num x, .num y⟩ ∧
      st.participants.find? (participantKey uid) = some part ∧
      significantMove part.position ⟨clampX x, clampY y⟩ = true ∧
      (userMove st authed inRoom uid data now).state.participants =
        updateFirst (participantKey uid) (commitFn ⟨clampX x, clampY y⟩ now) st.participants ∧
      (userMove st authed inRoom uid data now).broadcast = true) := by
  cases hau : authed && inRoom with
  | false => left; simp [userMove, hau]
  | true =>
    cases data with
    | none => left; simp [userMove, hau]
    | some rp =>
      obtain ⟨vx, vy⟩ := rp
      cases vx with
      | other => left; cases vy <;> simp [userMove, hau]
      | num x =>
        cases vy with
        | other => left; simp [userMove, hau]
        | num y =>
          by_cases hthr : ((now : ℤ) - ((lookupMoveTime st.lastMoveTime uid).getD 0 : ℤ) < 50)
          · left; simp [userMove, hau, hthr]
          · cases hfind : st.participants.find? (participantKey uid) with
            | none => left; simp [userMove, hau, hthr, hfind]
            | some part =>
              by_cases hsig : significantMove part.position ⟨clampX x, clampY y⟩ = true
              · right
                exact ⟨x, y, part, rfl, rfl, hsig,
                  by simp [userMove, hau, hthr, hfind, hsig],
                  by simp [userMove, hau, hthr, hfind, hsig]⟩
              · left
                simp only [Bool.not_eq_true] at hsig
                simp [userMove, hau, hthr, hfind, hsig]

/-- On an accepted, number-typed move for a present participant, the handler
either commits the clamped position (significant change) or skips the write
(insignificant change); either way the throttle stamp is advanced. -/
theorem userMove_run (st : MoveState) (uid : OID) (x y : JSNum) (now : ℕ) (part : Participant)
    (hthr : ¬ ((now : ℤ) - ((lookupMoveTime st.lastMoveTime uid).getD 0 : ℤ) < 50))
    (hfind : st.participants.find? (participantKey uid) = some part) :
    userMove st true true uid (some ⟨.num x, .num y⟩) now =
      if significantMove part.position ⟨clampX x, clampY y⟩ then
        ⟨⟨updateFirst (participantKey uid) (commitFn ⟨clampX x, clampY y⟩ now) st.participants,
          setMoveTime st.lastMoveTime uid now⟩, true, false⟩
      else ⟨⟨st.participants, setMoveTime st.lastMoveTime uid now⟩, false, false⟩ := by
  by_cases hsig : significantMove part.position ⟨clampX x, clampY y⟩ = true
  · simp [userMove, hthr, hfind, hsig]
  · simp only [Bool.not_eq_true] at hsig
    simp [userMove, hthr, hfind, hsig]

/-- A number-typed move arriving less than 50 ms after the last accepted one
is dropped before any state is touched. -/
theorem userMove_throttled (st : MoveState) (uid : OID) (x y : JSNum) (now : ℕ)
    (h : (now : ℤ) - ((lookupMoveTime st.lastMoveTime uid).getD 0 : ℤ) < 50) :
    userMove st true true uid (some ⟨.num x, .num y⟩) now = ⟨st, false, false⟩ := by
  simp [userMove, h]

theorem clampX_nan : clampX .nan = .nan := by simp [clampX, jsMin, jsMax]

theorem clampY_nan : clampY .nan = .nan := by simp [clampY, jsMin, jsMax]

theorem significantMove_nan_pair (cur : Pos) :
    significantMove cur ⟨.nan, .nan⟩ = false := by
  obtain ⟨cx, cy⟩ := cur
  cases cx <;> cases cy <;> simp [significantMove, jsGt, jsLt, jsAbs, jsSub]

/-! ## Claim theorems -/

/-- Claim C1, counterexample: a `userMove` with raw position `(NaN, 400)`
from a participant standing at `(100, 100)` is committed — the `NaN`
x-comparison of the significance filter is `false` but the y-comparison is
`true` — so the stored position after the call is `(NaN, 400)`, which does
not satisfy `minX ≤ x ≤ maxX`; the invariant as stated ("after any
`submitMove`, regardless of the input") fails. -/
theorem moveBoundsNanCounterexample :
    (userMove demoState true true demoUid2 (some ⟨.num .nan, .num (.num 400)⟩)
        1000).state.participants
      = [⟨demoUid, ⟨.nan, .num 400⟩, demoPos100, 1000⟩] ∧
    inBoundsB ⟨.nan, .num 400⟩ = false := by
  constructor
  · norm_num [userMove, demoState, demoUid, demoUid2, demoPart, demoPos100, lookupMoveTime,
      setMoveTime, participantKey, oidValueEq, oidStrictEq, List.find?, updateFirst, commitFn,
      significantMove, jsGt, jsLt, jsAbs, jsSub, epsilonQ, clampX, clampY, jsMin, jsMax,
      min_def, max_def, abs_of_nonneg, abs_of_nonpos]
  · simp [inBoundsB, jsLe]

/-- Claim C1, amended: for every `userMove` call whose raw coordinates are
numbers other than `NaN` (any magnitude, the infinities included), the
bounds invariant `20 ≤ x ≤ 780 ∧ 20 ≤ y ≤ 580` is preserved: if every
stored position satisfied it before the call, every stored position
satisfies it afterwards — a committed call stores exactly the clamp of the
input.  In particular the scenario input `(-500, 9999)` yields the stored
position exactly `(20, 580)`. -/
theorem moveBoundsPreserved :
    (∀ (st : MoveState) (authed inRoom : Bool) (uid : OID) (x y : JSNum) (now : ℕ),
      x ≠ JSNum.nan → y ≠ JSNum.nan →
      (∀ p ∈ st.participants, inBoundsB p.position = true) →
      ∀ p ∈ (userMove st authed inRoom uid (some ⟨.num x, .num y⟩) now).state.participants,
        inBoundsB p.position = true) ∧
    (userMove demoState true true demoUid2 (some ⟨.num (.num (-500)), .num (.num 9999)⟩)
        1000).state.participants
      = [⟨demoUid, ⟨.num 20, .num 580⟩, demoPos100, 1000⟩] := by
  constructor
  · intro st authed inRoom uid x y now hx hy hb p hp
    rcases userMove_shape st authed inRoom uid (some ⟨.num x, .num y⟩) now with
      ⟨hsame, _⟩ | ⟨x2, y2, part, hdata, hfind, hsig, heq, _⟩
    · rw [hsame] at hp
      exact hb p hp
    · have hxy : x = x2 ∧ y = y2 := by simpa using hdata
      rw [heq] at hp
      rcases mem_updateFirst hp with hmem | ⟨p0, hp0, hq⟩
      · exact hb p hmem
      · subst hq
        show inBoundsB ⟨clampX x2, clampY y2⟩ = true
        exact inBoundsB_clamp x2 y2 (hxy.1 ▸ hx) (hxy.2 ▸ hy)
  · norm_num [userMove, demoState, demoUid, demoUid2, demoPart, demoPos100, lookupMoveTime,
      setMoveTime, participantKey, oidValueEq, oidStrictEq, List.find?, updateFirst, commitFn,
      significantMove, jsGt, jsLt, jsAbs, jsSub, epsilonQ, clampX, clampY, jsMin, jsMax,
      min_def, max_def, abs_of_nonneg, abs_of_nonpos]

/-- Witness for the amended C1 theorem at the scenario input: the position
stored for the `(-500, 9999)` move satisfies the bounds invariant. -/
theorem moveBoundsPreservedWitness : inBoundsB (⟨.num 20, .num 580⟩ : Pos) = true :=
  moveBoundsPreserved.1 demoState true true demoUid2 (.num (-500)) (.num 9999) 1000
    (by simp) (by simp)
    (by
      intro p hp
      simp only [demoState, List.mem_singleton] at hp
      subst hp
      norm_num [demoPart, demoPos100, inBoundsB, jsLe])
    ⟨demoUid, ⟨.num 20, .num 580⟩, demoPos100, 1000⟩
    (by rw [moveBoundsPreserved.2]; exact List.mem_singleton_self _)

/-- Claim C9, counterexample: a raw position `(Infinity, 100)` is of
JavaScript type `number`, so it passes the validation; the clamp maps it
into the bounds and, the change being significant, the participant state is
written and a broadcast is triggered — contradicting "the update is
rejected and dropped: no participant state is written and no broadcast is
triggered" for non-finite inputs. -/
theorem moveInfinityCommitted :
    (userMove demoState true true demoUid2 (some ⟨.num .posInf, .num (.num 100)⟩)
        1000).broadcast = true ∧
    (userMove demoState true true demoUid2 (some ⟨.num .posInf, .num (.num 100)⟩)
        1000).state.participants
      = [⟨demoUid, ⟨.num 780, .num 100⟩, demoPos100, 1000⟩] ∧
    (⟨.num 780, .num 100⟩ : Pos) ≠ demoPos100 := by
  refine ⟨?_, ?_, by norm_num [demoPos100]⟩ <;>
    norm_num [userMove, demoState, demoUid, demoUid2, demoPart, demoPos100, lookupMoveTime,
      setMoveTime, participantKey, oidValueEq, oidStrictEq, List.find?, updateFirst, commitFn,
      significantMove, jsGt, jsLt, jsAbs, jsSub, epsilonQ, clampX, clampY, jsMin, jsMax,
      min_def, max_def, abs_of_nonneg, abs_of_nonpos]

/-- Claim C9, amended: the `userMove` validation rejects exactly the inputs
whose `position` is missing or whose `x`/`y` fail the `typeof === 'number'`
test; such a call throws before any state is touched — no participant
write, no throttle-stamp write, no broadcast, and an `error` event for the
sender.  Values of number type that are not finite pass this validation
(`Infinity`/`-Infinity` are clamped into the bounds and committed when
significant; `NaN` reaches the significance filter). -/
theorem moveTypeofValidation :
    ∀ (st : MoveState) (authed inRoom : Bool) (uid : OID) (data : Option RawPos) (now : ℕ),
      typeofNumberCheck data = false →
      userMove st authed inRoom uid data now = ⟨st, false, true⟩ := by
  intro st authed inRoom uid data now hv
  cases hau : authed && inRoom with
  | false =>
    cases data with
    | none => simp [userMove, hau]
    | some rp =>
      obtain ⟨vx, vy⟩ := rp
      cases vx <;> cases vy <;> simp [userMove, hau]
  | true =>
    cases data with
    | none => simp [userMove, hau]
    | some rp =>
      obtain ⟨vx, vy⟩ := rp
      cases vx <;> cases vy <;> simp_all [userMove, typeofNumberCheck]

/-- Witness for the amended C9 theorem: a `userMove` whose `x` is not of
number type is rejected with an error and leaves the state untouched. -/
theorem moveTypeofValidationWitness :
    userMove demoState true true demoUid2 (some ⟨.other, .num (.num 5)⟩) 99
      = ⟨demoState, false, true⟩ :=
  moveTypeofValidation demoState true true demoUid2 (some ⟨.other, .num (.num 5)⟩) 99 rfl

/-- Claim C10, counterexample: on input `(NaN, 400)` from a participant at
`(100, 100)` the `NaN` coordinate passes validation, the significance
comparison on `x` is `false` but the one on `y` is `true`, so the write and
broadcast do happen and the stored position is the `NaN`-carrying pair
`(NaN, 400)` — the claim that a `NaN` coordinate is never stored and the
write always skipped is false. -/
theorem moveNanStoredCounterexample :
    (userMove demoState true true demoUid2 (some ⟨.num .nan, .num (.num 400)⟩)
        1000).broadcast = true ∧
    ((userMove demoState true true demoUid2 (some ⟨.num .nan, .num (.num 400)⟩)
        1000).state.participants.find? (participantKey demoUid2)).map (fun p => p.position)
      = some ⟨.nan, .num 400⟩ := by
  constructor <;>
    norm_num [userMove, demoState, demoUid, demoUid2, demoPart, demoPos100, lookupMoveTime,
      setMoveTime, participantKey, oidValueEq, oidStrictEq, List.find?, updateFirst, commitFn,
      significantMove, jsGt, jsLt, jsAbs, jsSub, epsilonQ, clampX, clampY, jsMin, jsMax,
      min_def, max_def, abs_of_nonneg, abs_of_nonpos]

/-- Claim C10, amended: when both raw coordinates are `NaN`, the call passes
the `typeof` validation, clamping yields `NaN`, both significance
comparisons are `false`, and the write and broadcast are skipped: the
participant array (positions and `lastPosition`s included) is exactly as
before the call.  When only one coordinate is `NaN`, the other comparison
can still trigger the commit and store the `NaN` coordinate. -/
theorem moveNanPairSkipped :
    ∀ (st : MoveState) (authed inRoom : Bool) (uid : OID) (now : ℕ),
      (userMove st authed inRoom uid (some ⟨.num .nan, .num .nan⟩) now).state.participants
        = st.participants ∧
      (userMove st authed inRoom uid (some ⟨.num .nan, .num .nan⟩) now).broadcast = false := by
  intro st authed inRoom uid now
  rcases userMove_shape st authed inRoom uid (some ⟨.num .nan, .num .nan⟩) now with
    ⟨h1, h2⟩ | ⟨x, y, part, hdata, hfind, hsig, heq, hbc⟩
  · exact ⟨h1, h2⟩
  · exfalso
    have hxy : JSNum.nan = x ∧ JSNum.nan = y := by simpa using hdata
    rw [← hxy.1, ← hxy.2, clampX_nan, clampY_nan, significantMove_nan_pair] at hsig
    simp at hsig

/-- Claim C3, counterexample: a first `userMove` whose clamped input
`(100.05, 100)` differs from the current position `(100, 100)` by at most
`0.1` is accepted by the throttle but skipped by the significance filter; a
second call `40 ms` later is throttled.  After both calls the stored
position is `(100, 100)`, not the first call's clamped value `(100.05,
100)` — the claim's "position after both calls equals the clamped value of
the first call's input" fails. -/
theorem throttleInsignificantCounterexample :
    ((userMove (userMove demoState true true demoUid2
          (some ⟨.num (.num (2001 / 20)), .num (.num 100)⟩) 1000).state
        true true demoUid2 (some ⟨.num (.num 500), .num (.num 500)⟩)
        1040).state.participants.find? (participantKey demoUid2)).map (fun p => p.position)
      = some demoPos100 ∧
    (⟨clampX (.num (2001 / 20)), clampY (.num 100)⟩ : Pos) ≠ demoPos100 ∧
    ((1040 : ℤ) - 1000 < 50) := by
  refine ⟨?_, ?_, by norm_num⟩
  · norm_num [userMove, demoState, demoUid, demoUid2, demoPart, demoPos100, lookupMoveTime,
      setMoveTime, participantKey, oidValueEq, oidStrictEq, List.find?, updateFirst, commitFn,
      significantMove, jsGt, jsLt, jsAbs, jsSub, epsilonQ, clampX, clampY, jsMin, jsMax,
      min_def, max_def, abs_of_nonneg, abs_of_nonpos]
  · norm_num [clampX, clampY, jsMin, jsMax, demoPos100, min_def, max_def]

/-- Claim C3, amended: given a first number-typed `userMove` for a present
participant that passes the throttle, any second `userMove` for the same
identity arriving less than 50 ms later is silently dropped — the handler
returns before touching the participant array, the throttle map or the
broadcast, and surfaces no error.  The position after both calls is the
first call's clamped input if that input was a significant change (more
than `0.1` in `x` or `y` from the prior position), and the prior position
unchanged otherwise. -/
theorem throttleSecondDropped :
    ∀ (st : MoveState) (uid : OID) (x1 y1 x2 y2 : JSNum) (t1 t2 : ℕ) (part : Participant),
      st.participants.find? (participantKey uid) = some part →
      ¬ ((t1 : ℤ) - ((lookupMoveTime st.lastMoveTime uid).getD 0 : ℤ) < 50) →
      ((t2 : ℤ) - (t1 : ℤ) < 50) →
      userMove (userMove st true true uid (some ⟨.num x1, .num y1⟩) t1).state
          true true uid (some ⟨.num x2, .num y2⟩) t2
        = ⟨(userMove st true true uid (some ⟨.num x1, .num y1⟩) t1).state, false, false⟩ ∧
      ((userMove (userMove st true true uid (some ⟨.num x1, .num y1⟩) t1).state
            true true uid (some ⟨.num x2, .num y2⟩) t2).state.participants.find?
          (participantKey uid)).map (fun p => p.position)
        = some (if significantMove part.position ⟨clampX x1, clampY y1⟩
                then (⟨clampX x1, clampY y1⟩ : Pos) else part.position) := by
  intro st uid x1 y1 x2 y2 t1 t2 part hfind hthr hlt
  have h1 := userMove_run st uid x1 y1 t1 part hthr hfind
  by_cases hsig : significantMove part.position ⟨clampX x1, clampY y1⟩ = true
  · rw [if_pos hsig] at h1
    have hstamp : lookupMoveTime
        (userMove st true true uid (some ⟨.num x1, .num y1⟩) t1).state.lastMoveTime uid
        = some t1 := by
      rw [h1]
      exact lookupMoveTime_setMoveTime_self _ _ _
    have h2 := userMove_throttled
      (userMove st true true uid (some ⟨.num x1, .num y1⟩) t1).state uid x2 y2 t2
      (by rw [hstamp]; simpa using hlt)
    refine ⟨h2, ?_⟩
    rw [h2]
    simp only [h1]
    rw [find?_updateFirst (participantKey uid) (commitFn ⟨clampX x1, clampY y1⟩ t1)
      (fun a => rfl) st.participants, hfind]
    simp [hsig, commitFn]
  · rw [if_neg hsig] at h1
    have hstamp : lookupMoveTime
        (userMove st true true uid (some ⟨.num x1, .num y1⟩) t1).state.lastMoveTime uid
        = some t1 := by
      rw [h1]
      exact lookupMoveTime_setMoveTime_self _ _ _
    have h2 := userMove_throttled
      (userMove st true true uid (some ⟨.num x1, .num y1⟩) t1).state uid x2 y2 t2
      (by rw [hstamp]; simpa using hlt)
    refine ⟨h2, ?_⟩
    rw [h2]
    simp only [h1]
    rw [hfind]
    simp [hsig]

/-- Witness for the amended C3 theorem: a significant first move at
`t = 1000` followed by a second move at `t = 1040` leaves the second call
with no effect at all. -/
theorem throttleSecondDroppedWitness :
    userMove (userMove demoState true true demoUid2
        (some ⟨.num (.num 500), .num (.num 500)⟩) 1000).state
      true true demoUid2 (some ⟨.num (.num 9), .num (.num 9)⟩) 1040
      = ⟨(userMove demoState true true demoUid2
          (some ⟨.num (.num 500), .num (.num 500)⟩) 1000).state, false, false⟩ :=
  (throttleSecondDropped demoState demoUid2 (.num 500) (.num 500) (.num 9) (.num 9)
    1000 1040 demoPart rfl (by decide) (by decide)).1

theorem countValue_append_single (v : ℕ) (l : List Participant) (p : Participant) :
    countValue v (l ++ [p]) = countValue v l + (if p.user.value == v then 1 else 0) := by
  simp [countValue, List.countP_append, List.countP_cons]

theorem countValue_eq_zero_of_not_participant {r : RoomDoc} {uid : OID}
    (h : isParticipantCheck r uid = false) : countValue uid.value r.participants = 0 := by
  rw [countValue, List.countP_eq_zero]
  intro p hp
  intro hc
  have : isParticipantCheck r uid = true := by
    simp only [isParticipantCheck, List.any_eq_true]
    exact ⟨p, hp, by simpa [oidValueEq] using hc⟩
  rw [this] at h
  cases h

/-- Claim C4, counterexample: a duplicate `joinRoom` by an identity that is
already a participant leaves the room document completely unchanged — in
particular the participant's `lastActive` timestamp is *not* updated to the
join time, contradicting "a no-op besides updating the participant's
LastActiveTimestamp". -/
theorem joinLastActiveCounterexample :
    joinRoomUpdate demoRoomA demoUid2 2000 = .ok demoRoomA ∧
    demoRoomA.participants.map (fun p => p.lastActive) = [0] ∧ (0 : ℕ) ≠ 2000 := by
  decide

/-- Claim C4, amended: joining a room in which the identity is already a
participant (compared by identity value) adds no second entry and leaves
the room document — the participant's position and `lastActive` included —
completely unchanged, so join is idempotent under retry or duplicate
delivery; and a successful join preserves "at most one participant entry
per identity value". -/
theorem joinIdempotent :
    ∀ (r : RoomDoc) (uid : OID) (now : ℕ),
      (isParticipantCheck r uid = true → joinRoomUpdate r uid now = .ok r) ∧
      (∀ r2, joinRoomUpdate r uid now = .ok r2 →
        (∀ v, countValue v r.participants ≤ 1) → ∀ v, countValue v r2.participants ≤ 1) := by
  intro r uid now
  constructor
  · intro h
    simp [joinRoomUpdate, h]
  · intro r2 hok hu v
    by_cases h : isParticipantCheck r uid = true
    · simp only [joinRoomUpdate, h, if_true, JSResult.ok.injEq] at hok
      subst hok
      exact hu v
    · simp only [Bool.not_eq_true] at h
      simp only [joinRoomUpdate, h, Bool.false_eq_true, if_false, addParticipant] at hok
      by_cases hfull : lengthGeUndef r.participants.length r.maxParticipants = true
      · simp [hfull] at hok
      · simp only [Bool.not_eq_true] at hfull
        simp only [hfull, Bool.false_eq_true, if_false, JSResult.ok.injEq] at hok
        subst hok
        simp only [countValue_append_single]
        by_cases hv : uid.value = v
        · have h0 : countValue v r.participants = 0 := hv ▸ countValue_eq_zero_of_not_participant h
          simp [h0, hv]
        · have : ((⟨uid, ⟨.num 100, .num 100⟩, ⟨.num 100, .num 100⟩, now⟩ :
              Participant).user.value == v) = false := by
            simpa using hv
          simp only [this, Bool.false_eq_true, if_false, Nat.add_zero]
          exact hu v

/-- Witness for the amended C4 theorem: the duplicate join of `demoUid2`
(same identity value as the resident participant) returns the room
unchanged, and uniqueness of entries is preserved. -/
theorem joinIdempotentWitness :
    joinRoomUpdate demoRoomA demoUid2 5 = .ok demoRoomA ∧
    (∀ v, countValue v demoRoomA.participants ≤ 1) :=
  ⟨(joinIdempotent demoRoomA demoUid2 5).1 rfl,
   (joinIdempotent demoRoomA demoUid2 5).2 demoRoomA
     ((joinIdempotent demoRoomA demoUid2 5).1 rfl)
     (by
       intro v
       simp only [demoRoomA, demoPart, demoUid, countValue, List.countP_cons, List.countP_nil]
       split <;> simp)⟩

/-- Claim C2: the capacity guard of `addParticipant` compares
`participants.length` with the top-level `maxParticipants` path, but the
current schema keeps the capacity under `settings.maxParticipants`, so the
top-level read is `undefined` and the JavaScript comparison
`length >= undefined` is always `false`.  On a room at its configured
capacity (`settings.maxParticipants = 2` with two participants) a join by a
new identity therefore succeeds and a third entry is pushed — no `RoomFull`
error ever fires. -/
theorem roomFullCheckDead :
    addParticipant demoFullRoom ⟨9, 3⟩ demoPos100 5
      = .ok ⟨[demoPart, demoPartB, ⟨⟨9, 3⟩, demoPos100, demoPos100, 5⟩], none, 2⟩ ∧
    demoFullRoom.participants.length = 2 ∧
    demoFullRoom.settingsMaxParticipants = 2 ∧
    demoFullRoom.maxParticipants = none ∧
    lengthGeUndef 2 none = false := by
  decide

/-- Claim C5: removing an identity that is not a participant of the room is
a no-op and not an error — the `findIndex` finds no entry, the participant
array is returned unchanged, and `handleRoomLeave` (which catches every
internal error) leaves the whole server state intact while still emitting
the unchanged room to the remaining participants. -/
theorem leaveNonParticipantNoop :
    ∀ (r : RoomDoc) (uid : OID),
      (∀ p ∈ r.participants, p.user.value ≠ uid.value) →
      removeParticipant r uid = r ∧
      (∀ (ss : ServerState) (rid : ℕ), assocLookup ss.roomStates rid = some r →
        (handleRoomLeave ss rid uid).1 = ss ∧ (handleRoomLeave ss rid uid).2 = some r) := by
  intro r uid h
  have hidx : r.participants.findIdx? (fun p => oidStrictEq p.user uid) = none := by
    apply findIdx?_eq_none_of_all
    intro p hp
    by_contra hc
    rw [Bool.not_eq_false] at hc
    exact h p hp (oidStrictEq_value hc)
  have hrm : removeParticipant r uid = r := by
    simp [removeParticipant, hidx]
  refine ⟨hrm, ?_⟩
  intro ss rid hlook
  simp [handleRoomLeave, hlook, hrm, assocSet_lookup_self hlook]

/-- Witness for the C5 theorem: leaving with the stranger identity `⟨9, 5⟩`
changes nothing and produces the unchanged-room broadcast. -/
theorem leaveNonParticipantNoopWitness :
    removeParticipant demoRoomA ⟨9, 5⟩ = demoRoomA ∧
    (handleRoomLeave ⟨[(1, demoRoomA)], []⟩ 1 ⟨9, 5⟩).1 = ⟨[(1, demoRoomA)], []⟩ ∧
    (handleRoomLeave ⟨[(1, demoRoomA)], []⟩ 1 ⟨9, 5⟩).2 = some demoRoomA :=
  ⟨(leaveNonParticipantNoop demoRoomA ⟨9, 5⟩ (by decide)).1,
   ((leaveNonParticipantNoop demoRoomA ⟨9, 5⟩ (by decide)).2 ⟨[(1, demoRoomA)], []⟩ 1 rfl).1,
   ((leaveNonParticipantNoop demoRoomA ⟨9, 5⟩ (by decide)).2 ⟨[(1, demoRoomA)], []⟩ 1 rfl).2⟩

/-- Claim C6: on disconnect, `handleRoomLeave` calls `removeParticipant`,
whose `findIndex` compares `p.user._id === userId` — JavaScript reference
equality between the `ObjectId` held by the cached (populated) room document
and the distinct `ObjectId` instance the socket obtained from its own
`User.findById` — which is `false` even though both carry the same identity
value.  The participant entry is therefore *not* removed, and the
`roomState` broadcast that follows still contains the disconnected
identity. -/
theorem disconnectLeavesGhost :
    (disconnectHandler ⟨[(1, demoRoomA)], []⟩ demoUid2 (some 1)).1.roomStates
      = [(1, demoRoomA)] ∧
    (disconnectHandler ⟨[(1, demoRoomA)], []⟩ demoUid2 (some 1)).2 = some demoRoomA ∧
    demoRoomA.participants.any (fun p => oidValueEq p.user demoUid2) = true ∧
    oidStrictEq demoPart.user demoUid2 = false := by
  decide

/-- Claim C7: the eviction step of the `disconnect` handler tests
`io.sockets.adapter.rooms.get(currentRoomId)?.size === 0`; by the time the
`disconnect` event fires the socket has already left the Socket.IO room,
whose entry is deleted when it empties, so for the last socket the `get`
yields `undefined` and the comparison is `false`: a cached room whose
participant set is empty is *not* evicted from `roomStates`. -/
theorem emptyRoomNotEvicted :
    (disconnectHandler ⟨[(2, demoEmptyRoom)], []⟩ demoUid2 (some 2)).1.roomStates
      = [(2, demoEmptyRoom)] ∧
    demoEmptyRoom.participants = [] := by
  decide

set_option maxRecDepth 4000 in
/-- Claim C8, counterexample: the `chatMessage` handler enforces no length
bound — a 501-character message (over the claimed 500-character limit) is
accepted and acknowledged with success and the assigned id. -/
theorem chatOverlengthAccepted :
    chatMessageHandler true true true true (some (.str (List.replicate 501 'a'))) 42
      = .ok (List.replicate 501 'a', 42) ∧
    (List.replicate 501 'a').length = 501 := by
  constructor
  · decide
  · simp

/-- Claim C8, amended: `chatMessage` acknowledges success (with the assigned
message id) exactly when the sender is authenticated and joined to a room,
the room loads, persistence succeeds, and the message is a string with
non-empty trimmed text; in every other case — including persistence
failure — the acknowledgment callback receives an explicit error.  No
length bound is enforced. -/
theorem chatAckContract :
    ∀ (authed inRoom roomLoaded persistOk : Bool) (msg : Option ChatVal) (newId : ℕ),
      ((chatMessageHandler authed inRoom roomLoaded persistOk msg newId).isOk
        = ((authed && inRoom) && roomLoaded && persistOk && chatValidCheck msg)) ∧
      (∀ s, msg = some (.str s) → authed = true → inRoom = true → roomLoaded = true →
        persistOk = true → chatValidCheck msg = true →
        chatMessageHandler authed inRoom roomLoaded persistOk msg newId
          = .ok (jsTrim s, newId)) := by
  intro authed inRoom roomLoaded persistOk msg newId
  constructor
  · cases hau : authed && inRoom with
    | false =>
      cases msg with
      | none => simp [chatMessageHandler, hau, JSResult.isOk, chatValidCheck]
      | some cv => cases cv <;> simp [chatMessageHandler, hau, JSResult.isOk, chatValidCheck]
    | true =>
      cases msg with
      | none => simp [chatMessageHandler, hau, JSResult.isOk, chatValidCheck]
      | some cv =>
        cases cv with
        | other => simp [chatMessageHandler, hau, JSResult.isOk, chatValidCheck]
        | str s =>
          cases hse : s.isEmpty with
          | true => simp [chatMessageHandler, hau, hse, JSResult.isOk, chatValidCheck]
          | false =>
            cases hst : (jsTrim s).isEmpty with
            | true => simp [chatMessageHandler, hau, hse, hst, JSResult.isOk, chatValidCheck]
            | false =>
              cases roomLoaded <;> cases persistOk <;>
                simp [chatMessageHandler, hau, hse, hst, JSResult.isOk, chatValidCheck]
  · intro s hmsg ha hi hr hp hv
    subst hmsg
    subst ha
    subst hi
    subst hr
    subst hp
    simp only [chatValidCheck, Bool.and_eq_true] at hv
    have h1 : ¬ s = [] := by
      intro h
      rw [h] at hv
      simp at hv
    have h2 : ¬ jsTrim s = [] := by
      intro h
      rw [h] at hv
      simp at hv
    simp [chatMessageHandler, h1, h2]

/-- Witness for the amended C8 theorem: a plain two-character message from a
joined, authenticated sender with working persistence is acknowledged with
success and the assigned id. -/
theorem chatAckContractWitness :
    chatMessageHandler true true true true (some (.str ['h', 'i'])) 7
      = .ok (['h', 'i'], 7) :=
  (chatAckContract true true true true (some (.str ['h', 'i'])) 7).2
    ['h', 'i'] rfl rfl rfl rfl rfl rfl

end MetaVerse
